import Mathlib

/-!
Verification of the sdformat frame-semantics and DOM-loading layer.

The embedding covers:
* the error model (`sdf::Error`) as used by `src/src/Collision.cc` and the
  Actor translation unit;
* the generic loaders `loadUniqueRepeated` and `loadRepeated` from
  `src/src/Utils.hh`;
* `Collision::Load` / `Collision::ResolvePose` from `src/src/Collision.cc`;
* `Animation`, `Waypoint`, `Trajectory`, `Actor` loading and the index-based
  accessors from the Actor translation unit;
* the per-scope pose graph and attachment graph together with their resolvers,
  modelled from the specification (the graph implementation itself is not part
  of the sampled sources, only its callers and declarations are).

Rigid transforms (`ignition::math::Pose3d` values composed with `*` and
inverted) are modelled as elements of an arbitrary group `G`; `double` scalars
that are only stored and never computed with are modelled as `Rat`.
-/

namespace SdfV

/-- Error codes used by the embedded code paths (subset of `sdf::ErrorCode`). -/
inductive ErrorCode where
  | elementIncorrectType
  | attributeMissing
  | reservedName
  | elementInvalid
  | elementMissing
  | duplicateName
  deriving DecidableEq, Repr

/-- One `sdf::Error`: an error code together with its message. -/
structure SdfError where
  code : ErrorCode
  message : String
  deriving DecidableEq, Repr

/-- The type `sdf::Errors` is a vector of errors. -/
abbrev Errors := List SdfError

/-- Modelled from the spec: the body of `isReservedName` is not among the
sampled sources; its declaration in `src/src/Utils.hh` documents that it
returns true for `"world"` and for all strings that start and end with
`"__"`. -/
def isReservedName (name : String) : Bool :=
  name == "world" || (name.startsWith "__" && name.endsWith "__")

section LoadHelpers

variable {α β : Type}

/-- Worker loop of `loadUniqueRepeated` (`src/src/Utils.hh`): iterate over the
sibling elements carrying the accumulated list of names already seen.  For each
element the object is loaded first; if its name was already seen a
`DUPLICATE_NAME` error is emitted and the object is dropped, otherwise the
object and its name are recorded; the load errors of the element are appended
either way. -/
def loadUniqueRepeatedAux (load : α → Errors × β)
    (getName : α → Option String) (sdfName : String) :
    List α → List String → Errors × List β
  | [], _ => ([], [])
  | e :: rest, names =>
    let r := load e
    let name := (getName e).getD ""
    if name ∈ names then
      let restR := loadUniqueRepeatedAux load getName sdfName rest names
      (⟨.duplicateName,
          sdfName ++ " with name[" ++ name ++ "] already exists."⟩ ::
        (r.1 ++ restR.1), restR.2)
    else
      let restR := loadUniqueRepeatedAux load getName sdfName rest (names ++ [name])
      (r.1 ++ restR.1, r.2 :: restR.2)

/-- Embedding of `loadUniqueRepeated` from `src/src/Utils.hh`: load all sibling elements of
one sdf element type, enforcing that the `name` attribute is unique among the
siblings.  `load` stands for `Class obj; obj.Load(elem)` and `getName` for
`sdf::loadName` (which leaves the name empty when the attribute is absent). -/
def loadUniqueRepeated (load : α → Errors × β)
    (getName : α → Option String) (sdfName : String)
    (elems : List α) : Errors × List β :=
  loadUniqueRepeatedAux load getName sdfName elems []

/-- Embedding of `loadRepeated` from `src/src/Utils.hh`: load all sibling elements of one
sdf element type; load errors are accumulated and every object is kept in the
output vector even when its load produced errors. -/
def loadRepeated (load : α → Errors × β) :
    List α → Errors × List β
  | [] => ([], [])
  | e :: rest =>
    let r := load e
    let restR := loadRepeated load rest
    (r.1 ++ restR.1, r.2 :: restR.2)

end LoadHelpers

section CollisionModel

/-!
Embedding of `src/src/Collision.cc`.  `G` is the group of rigid transforms
(`ignition::math::Pose3d` under composition), `Γ` the type of the pose
relative-to graph the collision holds a weak pointer to, `M` the loaded
geometry type and `E` the raw geometry element type (`Geometry::Load` is not
among the sampled sources, so the geometry loader is a parameter). -/

variable {G : Type} [Group G] {Γ M E : Type}

/-- State of `sdf::CollisionPrivate`.  The weak pointer
`poseRelativeToGraph` is modelled after `weak_ptr::lock`: `none` when the
owning graph has expired, `some graph` when it is alive. -/
structure Collision (G Γ M : Type) where
  name : String
  pose : G
  poseRelativeTo : String
  geom : M
  xmlParentName : String
  poseRelativeToGraph : Option Γ

/-- The parts of a `<collision>` sdf element read by `Collision::Load`:
the element tag (`GetName()`), the optional `name` attribute (`loadName`),
the optional `<pose>` child with its `relative_to` attribute (`loadPose`),
and the `<geometry>` child element. -/
structure CollisionElem (G E : Type) where
  tag : String
  nameAttr : Option String
  poseElem : Option (G × String)
  geomElem : E

/-- Modelled from the spec: the body of `loadPose` is not among the sampled
sources; its declaration in `src/src/Utils.hh` documents that the output pose
defaults to `Pose3d::Zero` (the identity transform) and the output frame to
the empty string when the pose element is absent. -/
def loadPoseF (pe : Option (G × String)) : G × String :=
  match pe with
  | none => (1, "")
  | some pf => pf

/-- Embedding of `Collision::Load` from `src/src/Collision.cc`: reject a non-`<collision>`
element outright; otherwise accumulate a missing-name error, a reserved-name
error, the (ignored-result) pose load, and the geometry load errors. -/
def Collision.Load (geomLoad : E → Errors × M)
    (c : Collision G Γ M) (e : CollisionElem G E) :
    Errors × Collision G Γ M :=
  if e.tag ≠ "collision" then
    ([⟨.elementIncorrectType,
        "Attempting to load a Collision, but the provided SDF element is not a <collision>."⟩], c)
  else
    let nameR : Errors × String :=
      match e.nameAttr with
      | some n => ([], n)
      | none =>
        ([⟨.attributeMissing,
            "A collision name is required, but the name is not set."⟩], c.name)
    let reservedErrs : Errors :=
      if isReservedName nameR.2 then
        [⟨.reservedName,
          "The supplied collision name [" ++ nameR.2 ++ "] is reserved."⟩]
      else []
    let poseR := loadPoseF e.poseElem
    let geomR := geomLoad e.geomElem
    (nameR.1 ++ reservedErrs ++ geomR.1,
      { c with
        name := nameR.2
        pose := poseR.1
        poseRelativeTo := poseR.2
        geom := geomR.2 })

/-- Embedding of `Collision::ResolvePose(_relativeTo, _pose)` from `src/src/Collision.cc`.
`rp` stands for the free function `resolvePose(graph, frameName, resolveTo,
pose)` of the frame-semantics engine (not among the sampled sources), which
returns the error list and the value it leaves in its in/out pose argument.
On the expired-graph and empty-xml-parent-name branches the in/out pose
argument is returned untouched; otherwise the result of the graph resolution
is multiplied on the right by the collision's raw pose, regardless of the
errors the resolution returned. -/
def Collision.ResolvePose (rp : Γ → String → String → G → Errors × G)
    (c : Collision G Γ M) (relativeTo : String) (pose : G) :
    Errors × G :=
  match c.poseRelativeToGraph with
  | none =>
    ([⟨.elementInvalid,
        "Collision with name [" ++ c.name ++
        "] has invalid pointer to PoseRelativeToGraph."⟩], pose)
  | some graph =>
    if c.xmlParentName = "" then
      ([⟨.elementInvalid,
          "Collision with name [" ++ c.name ++
          "] has invalid name of xml parent object."⟩], pose)
    else
      let collisionRelativeTo :=
        if c.poseRelativeTo = "" then c.xmlParentName else c.poseRelativeTo
      let r := rp graph collisionRelativeTo relativeTo pose
      (r.1, r.2 * c.pose)

/-- The single-argument overload `Collision::ResolvePose(_pose)` from
`src/src/Collision.cc`: resolve relative to the xml parent object. -/
def Collision.ResolvePoseDefault (rp : Γ → String → String → G → Errors × G)
    (c : Collision G Γ M) (pose : G) : Errors × G :=
  Collision.ResolvePose rp c c.xmlParentName pose

end CollisionModel

section ActorModel

/-!
Embedding of the Actor translation unit (`Animation`, `Waypoint`,
`Trajectory`, `Actor`).  `Get<T>("x", default)` returns a `(value, wasSet)`
pair; an absent entry is modelled as `none`, in which case the stored default
is kept.  `Link::Load` and `Joint::Load` are not among the sampled sources,
so the link and joint loaders are parameters of `Actor.Load`. -/

variable {G : Type} [Group G] {L J α β : Type}

/-- State of `sdf::AnimationPrivate`. -/
structure Animation where
  name : String
  filename : String
  scale : Rat
  interpolateX : Bool
  deriving DecidableEq, Repr

/-- A default-constructed `Animation` (the member initializers of
`AnimationPrivate`). -/
def Animation.init : Animation :=
  { name := "__default__", filename := "__default__", scale := 1,
    interpolateX := false }

/-- The parts of an `<animation>` element read by `Animation::Load`. -/
structure AnimationElem where
  nameAttr : Option String
  filename : Option String
  scale : Option Rat
  interpolateX : Option Bool

/-- Embedding of `Animation::Load`: a missing name attribute and a missing `<filename>`
each contribute an error; scale and interpolate_x fall back to the stored
defaults. -/
def Animation.Load (a : Animation) (e : AnimationElem) : Errors × Animation :=
  let nameR : Errors × String :=
    match e.nameAttr with
    | some n => ([], n)
    | none => ([⟨.attributeMissing, "An <animation> requires a name attribute."⟩], a.name)
  let fileErrs : Errors :=
    if e.filename.isSome then []
    else [⟨.elementMissing, "An <animation> requires a <filename>."⟩]
  (nameR.1 ++ fileErrs,
    { name := nameR.2
      filename := e.filename.getD a.filename
      scale := (e.scale).getD a.scale
      interpolateX := (e.interpolateX).getD a.interpolateX })

/-- State of `sdf::WaypointPrivate`. -/
structure Waypoint (G : Type) where
  time : Rat
  pose : G

/-- A default-constructed `Waypoint`. -/
def Waypoint.init : Waypoint G := { time := 0, pose := 1 }

/-- The parts of a `<waypoint>` element read by `Waypoint::Load`. -/
structure WaypointElem (G : Type) where
  time : Option Rat
  pose : Option G

/-- Embedding of `Waypoint::Load`: a missing `<time>` and a missing `<pose>` each
contribute an error; the values fall back to the stored defaults. -/
def Waypoint.Load (w : Waypoint G) (e : WaypointElem G) : Errors × Waypoint G :=
  let timeErrs : Errors :=
    if e.time.isSome then []
    else [⟨.elementMissing, "A <waypoint> requires a <time>."⟩]
  let poseErrs : Errors :=
    if e.pose.isSome then []
    else [⟨.elementMissing, "A <waypoint> requires a <pose>."⟩]
  (timeErrs ++ poseErrs,
    { time := e.time.getD w.time, pose := e.pose.getD w.pose })

/-- State of `sdf::TrajectoryPrivate`. -/
structure Trajectory (G : Type) where
  id : Nat
  type : String
  tension : Rat
  waypoints : List (Waypoint G)

/-- A default-constructed `Trajectory`. -/
def Trajectory.init : Trajectory G :=
  { id := 0, type := "__default__", tension := 0, waypoints := [] }

/-- The parts of a `<trajectory>` element read by `Trajectory::Load`. -/
structure TrajectoryElem (G : Type) where
  id : Option Nat
  type : Option String
  tension : Option Rat
  waypoints : List (WaypointElem G)

/-- Embedding of `Trajectory::Load`: a missing `<id>` and a missing `<type>` each
contribute an error; the waypoints are loaded with `loadRepeated`, whose
errors are appended. -/
def Trajectory.Load (t : Trajectory G) (e : TrajectoryElem G) :
    Errors × Trajectory G :=
  let idErrs : Errors :=
    if e.id.isSome then []
    else [⟨.elementMissing, "A <trajectory> requires a <id>."⟩]
  let typeErrs : Errors :=
    if e.type.isSome then []
    else [⟨.elementMissing, "A <trajectory> requires a <type>."⟩]
  let wpR := loadRepeated (Waypoint.Load (Waypoint.init (G := G))) e.waypoints
  (idErrs ++ typeErrs ++ wpR.1,
    { id := e.id.getD t.id
      type := e.type.getD t.type
      tension := e.tension.getD t.tension
      waypoints := wpR.2 })

/-- Embedding of `Trajectory::WaypointCount`. -/
def Trajectory.WaypointCount (t : Trajectory G) : Nat :=
  t.waypoints.length

/-- Embedding of `Trajectory::WaypointByIndex`: bounds-checked vector access returning a
null pointer (here `none`) out of bounds. -/
def Trajectory.WaypointByIndex (t : Trajectory G) (index : Nat) :
    Option (Waypoint G) :=
  if h : index < t.waypoints.length then some (t.waypoints.get ⟨index, h⟩)
  else none

/-- State of `sdf::ActorPrivate`. -/
structure Actor (G L J : Type) where
  name : String
  pose : G
  poseFrame : String
  skinFilename : String
  skinScale : Rat
  animations : List Animation
  scriptLoop : Bool
  scriptDelayStart : Rat
  scriptAutoStart : Bool
  trajectories : List (Trajectory G)
  links : List L
  joints : List J

/-- A default-constructed `Actor` (the member initializers of
`ActorPrivate`). -/
def Actor.init : Actor G L J :=
  { name := "__default__", pose := 1, poseFrame := "",
    skinFilename := "__default__", skinScale := 1, animations := [],
    scriptLoop := true, scriptDelayStart := 0, scriptAutoStart := true,
    trajectories := [], links := [], joints := [] }

/-- The parts of a `<skin>` element read by `Actor::Load`. -/
structure SkinElem where
  filename : Option String
  scale : Option Rat

/-- The parts of a `<script>` element read by `Actor::Load`. -/
structure ScriptElem (G : Type) where
  loop : Option Bool
  delayStart : Option Rat
  autoStart : Option Bool
  trajectories : List (TrajectoryElem G)

/-- The parts of an `<actor>` element read by `Actor::Load`. -/
structure ActorElem (G α β : Type) where
  tag : String
  nameAttr : Option String
  poseElem : Option (G × String)
  skin : Option SkinElem
  animations : List AnimationElem
  script : Option (ScriptElem G)
  links : List α
  joints : List β

/-- The name-reading step of `Actor::Load`: a missing name attribute
contributes an error and keeps the stored default. -/
def actorNameR (defName : String) (nameAttr : Option String) :
    Errors × String :=
  match nameAttr with
  | some n => ([], n)
  | none =>
    ([⟨.attributeMissing,
        "An actor name is required, but the name is not set."⟩], defName)

/-- The `<skin>` step of `Actor::Load`: when a skin element is present, a
missing `<filename>` contributes an error; filename and scale fall back to
the stored defaults. -/
def actorSkinR (defFile : String) (defScale : Rat) (skin : Option SkinElem) :
    Errors × String × Rat :=
  match skin with
  | none => ([], defFile, defScale)
  | some s =>
    (if s.filename.isSome then []
     else [⟨.elementMissing, "A <skin> requires a <filename>."⟩],
     s.filename.getD defFile, s.scale.getD defScale)

/-- The `<script>` step of `Actor::Load`: a missing script element
contributes an error; otherwise loop/delay_start/auto_start are read and the
trajectories are loaded with `loadRepeated`. -/
def actorScriptR (defLoop : Bool) (defDelay : Rat) (defAuto : Bool)
    (defTraj : List (Trajectory G)) (script : Option (ScriptElem G)) :
    Errors × Bool × Rat × Bool × List (Trajectory G) :=
  match script with
  | none =>
    ([⟨.elementMissing, "An <actor> requires a <script>."⟩],
     defLoop, defDelay, defAuto, defTraj)
  | some s =>
    let trajR := loadRepeated (Trajectory.Load (Trajectory.init (G := G)))
      s.trajectories
    (trajR.1, s.loop.getD defLoop, s.delayStart.getD defDelay,
     s.autoStart.getD defAuto, trajR.2)

/-- Embedding of `Actor::Load`: reject a non-`<actor>` element outright; otherwise keep
going after every defect — missing name, missing `<skin>` `<filename>`,
missing `<script>` — and append the animation, trajectory, link and joint
load errors in source order. -/
def Actor.Load (loadLink : α → Errors × L)
    (loadJoint : β → Errors × J)
    (a : Actor G L J) (e : ActorElem G α β) :
    Errors × Actor G L J :=
  if e.tag ≠ "actor" then
    ([⟨.elementIncorrectType,
        "Attempting to load an actor, but the provided SDF element is not an<actor>."⟩], a)
  else
    let nameR := actorNameR a.name e.nameAttr
    let poseR := loadPoseF e.poseElem
    let skinR := actorSkinR a.skinFilename a.skinScale e.skin
    let animR :=
      loadUniqueRepeated (Animation.Load Animation.init)
        (fun (ae : AnimationElem) => ae.nameAttr) "animation" e.animations
    let scriptR := actorScriptR a.scriptLoop a.scriptDelayStart
      a.scriptAutoStart a.trajectories e.script
    let linkR := loadRepeated loadLink e.links
    let jointR := loadRepeated loadJoint e.joints
    (nameR.1 ++ skinR.1 ++ animR.1 ++ scriptR.1 ++ linkR.1 ++ jointR.1,
      { name := nameR.2
        pose := poseR.1
        poseFrame := poseR.2
        skinFilename := skinR.2.1
        skinScale := skinR.2.2
        animations := animR.2
        scriptLoop := scriptR.2.1
        scriptDelayStart := scriptR.2.2.1
        scriptAutoStart := scriptR.2.2.2.1
        trajectories := scriptR.2.2.2.2
        links := linkR.2
        joints := jointR.2 })

/-- Embedding of `Actor::AnimationCount`. -/
def Actor.AnimationCount (a : Actor G L J) : Nat :=
  a.animations.length

/-- Embedding of `Actor::AnimationByIndex`. -/
def Actor.AnimationByIndex (a : Actor G L J) (index : Nat) :
    Option Animation :=
  if h : index < a.animations.length then some (a.animations.get ⟨index, h⟩)
  else none

/-- Embedding of `Actor::TrajectoryCount`. -/
def Actor.TrajectoryCount (a : Actor G L J) : Nat :=
  a.trajectories.length

/-- Embedding of `Actor::TrajectoryByIndex`. -/
def Actor.TrajectoryByIndex (a : Actor G L J) (index : Nat) :
    Option (Trajectory G) :=
  if h : index < a.trajectories.length then some (a.trajectories.get ⟨index, h⟩)
  else none

/-- Embedding of `Actor::LinkCount`. -/
def Actor.LinkCount (a : Actor G L J) : Nat :=
  a.links.length

/-- Embedding of `Actor::LinkByIndex`. -/
def Actor.LinkByIndex (a : Actor G L J) (index : Nat) :
    Option L :=
  if h : index < a.links.length then some (a.links.get ⟨index, h⟩)
  else none

/-- Embedding of `Actor::JointCount`. -/
def Actor.JointCount (a : Actor G L J) : Nat :=
  a.joints.length

/-- Embedding of `Actor::JointByIndex`. -/
def Actor.JointByIndex (a : Actor G L J) (index : Nat) :
    Option J :=
  if h : index < a.joints.length then some (a.joints.get ⟨index, h⟩)
  else none

end ActorModel

section GraphModel

/-!
Modelled from the spec: the frame-semantics graph engine itself
(`PoseRelativeToGraph`, `FrameAttachedToGraph` and their resolvers) is not
among the sampled sources — only its callers (`src/src/Collision.cc`) and the
specification describe it.  Following the specification, each scope owns an
arena of vertices indexed by integer handle; every non-root vertex has exactly
one outgoing edge, and cycle detection uses the vertex count as a hop bound.
Transforms are elements of a group `G`. -/

variable {G : Type} [Group G]

/-- Kind of a frame-bearing vertex (spec data model). -/
inductive VertexKind where
  | link
  | joint
  | visual
  | collision
  | explicitFrame
  | modelPlaceholder
  | worldRoot
  deriving DecidableEq, Repr

/-- Modelled from the spec: a pose-graph vertex: its name and its unique
outgoing pose edge `(target handle, transform)`; the scope root has none. -/
structure PoseVertex (G : Type) where
  name : String
  edgeTo : Option (Nat × G)

/-- Modelled from the spec: the per-scope pose graph, an arena of vertices
indexed by integer handle. -/
structure PoseRelativeToGraph (G : Type) where
  verts : List (PoseVertex G)

/-- Modelled from the spec: walk the unique outgoing pose edges from vertex
`v` to the scope root, fuel-bounded (the hop bound is the cycle-detection stop
condition), returning the ordered list of `(next vertex, transform)` edges
traversed, or `none` on a cycle or a dangling handle. -/
def toRootEdges (g : PoseRelativeToGraph G) : Nat → Nat → Option (List (Nat × G))
  | 0, _ => none
  | fuel + 1, v =>
    match g.verts.get? v with
    | none => none
    | some vert =>
      match vert.edgeTo with
      | none => some []
      | some (t, x) => (toRootEdges g fuel t).map (fun rest => (t, x) :: rest)

/-- The chain of vertex handles visited when starting at `v` and traversing
the given edge list. -/
def idChain (v : Nat) (es : List (Nat × G)) : List Nat :=
  v :: es.map Prod.fst

/-- Compose a walked edge list: each edge traversed in the natural direction
pre-multiplies the accumulated transform by its stored transform. -/
def composeEdges (es : List (Nat × G)) : G :=
  es.foldl (fun acc e => e.2 * acc) 1

/-- Length of the longest common prefix of two lists. -/
def commonPrefixLen {α : Type} [DecidableEq α] : List α → List α → Nat
  | x :: xs, y :: ys => if x = y then commonPrefixLen xs ys + 1 else 0
  | _, _ => 0

/-- Look a vertex up by name in the arena. -/
def findVertex (g : PoseRelativeToGraph G) (name : String) : Option Nat :=
  g.verts.findIdx? (fun vert => vert.name = name)

/-- Modelled from the spec: `ResolvePose(sourceName, targetName)`.  Resolving
a vertex to itself yields the identity without traversal; otherwise both
vertices are walked to the root, the lowest common ancestor is found by
comparing the two vertex chains from the root end, and the result composes
the source-to-LCA walk with the inverse of the target-to-LCA walk.  A failed
walk or an unreachable target yields `none` (`POSE_RELATIVE_TO_CYCLE` /
`POSE_RELATIVE_TO_INVALID`). -/
def ResolvePose (g : PoseRelativeToGraph G) (source target : String) :
    Option G :=
  match findVertex g source, findVertex g target with
  | some s, some t =>
    if s = t then some 1
    else
      match toRootEdges g g.verts.length s, toRootEdges g g.verts.length t with
      | some es, some et =>
        let k := commonPrefixLen (idChain s es).reverse (idChain t et).reverse
        if k = 0 then none
        else
          some ((composeEdges (et.take (et.length + 1 - k)))⁻¹ *
            composeEdges (es.take (es.length + 1 - k)))
      | _, _ => none
  | _, _ => none

/-- Modelled from the spec: an attachment-graph vertex: its name, its kind,
and its unique outgoing attachment edge; the scope root has none. -/
structure AttachVertex where
  name : String
  kind : VertexKind
  edgeTo : Option Nat

/-- Modelled from the spec: the per-scope attachment graph. -/
structure FrameAttachedToGraph where
  verts : List AttachVertex

/-- A Link vertex, the WorldRoot, or a ModelPlaceholder: the only valid
terminals of attachment resolution. -/
def isTerminalKind : VertexKind → Bool
  | .link => true
  | .worldRoot => true
  | .modelPlaceholder => true
  | _ => false

/-- Modelled from the spec: walk outgoing attachment edges from vertex `v`,
fuel-bounded (the hop bound is the cycle-detection stop condition); stop with
the current handle on reaching a Link, the WorldRoot, or a ModelPlaceholder;
fail (`FRAME_ATTACHED_TO_CYCLE` / dangling handle) otherwise. -/
def resolveAttachedTo (g : FrameAttachedToGraph) : Nat → Nat → Option Nat
  | 0, _ => none
  | fuel + 1, v =>
    match g.verts.get? v with
    | none => none
    | some vert =>
      if isTerminalKind vert.kind then some v
      else
        match vert.edgeTo with
        | none => none
        | some t => resolveAttachedTo g fuel t

end GraphModel

/-! ## Theorems -/

section CollisionTheorems

variable {G : Type} [Group G] {Γ M E : Type}

/-- C3: a pose query through a `Collision` whose weak pointer to the owning
scope's `PoseRelativeToGraph` has expired fails with a distinct
`ELEMENT_INVALID` error, leaves the output pose untouched, and performs no
graph resolution: the result does not depend on the resolution function `rp`
at all. -/
theorem collision_resolvePose_expired_graph
    (rp : Γ → String → String → G → Errors × G)
    (c : Collision G Γ M) (relativeTo : String) (pose : G)
    (h : c.poseRelativeToGraph = none) :
    Collision.ResolvePose rp c relativeTo pose =
      ([⟨.elementInvalid,
          "Collision with name [" ++ c.name ++
          "] has invalid pointer to PoseRelativeToGraph."⟩], pose) := by
  unfold Collision.ResolvePose
  rw [h]

theorem collision_resolvePose_expired_graph_witness :
    Collision.ResolvePose (G := Multiplicative ℤ) (Γ := Unit) (M := Unit)
      (fun _ _ _ p => ([], p))
      { name := "c", pose := 1, poseRelativeTo := "", geom := (),
        xmlParentName := "link", poseRelativeToGraph := none }
      "frame" 1 =
      ([⟨.elementInvalid,
          "Collision with name [" ++ "c" ++
          "] has invalid pointer to PoseRelativeToGraph."⟩], 1) :=
  collision_resolvePose_expired_graph _ _ _ _ rfl

/-- C4: when the collision's `relative_to` declaration is unspecified (empty
string), `Collision::ResolvePose` resolves starting from the frame named by
the collision's xml parent (its owning link), and the single-argument
overload resolves relative to that same xml parent frame. -/
theorem collision_resolvePose_empty_relative_to
    (rp : Γ → String → String → G → Errors × G)
    (c : Collision G Γ M) (graph : Γ) (relativeTo : String) (pose : G)
    (hg : c.poseRelativeToGraph = some graph)
    (hx : c.xmlParentName ≠ "")
    (hrel : c.poseRelativeTo = "") :
    Collision.ResolvePose rp c relativeTo pose =
      ((rp graph c.xmlParentName relativeTo pose).1,
        (rp graph c.xmlParentName relativeTo pose).2 * c.pose) ∧
    Collision.ResolvePoseDefault rp c pose =
      Collision.ResolvePose rp c c.xmlParentName pose := by
  constructor
  · unfold Collision.ResolvePose
    rw [hg]
    simp [hx, hrel]
  · rfl

theorem collision_resolvePose_empty_relative_to_witness :
    Collision.ResolvePose (G := Multiplicative ℤ) (Γ := Unit) (M := Unit)
      (fun _ src _ p => ([], if src = "link" then Multiplicative.ofAdd 7 else p))
      { name := "c", pose := Multiplicative.ofAdd 2, poseRelativeTo := "",
        geom := (), xmlParentName := "link", poseRelativeToGraph := some () }
      "frame" 1 =
      ([], Multiplicative.ofAdd 7 * Multiplicative.ofAdd 2) ∧
    Collision.ResolvePoseDefault (G := Multiplicative ℤ) (Γ := Unit) (M := Unit)
      (fun _ src _ p => ([], if src = "link" then Multiplicative.ofAdd 7 else p))
      { name := "c", pose := Multiplicative.ofAdd 2, poseRelativeTo := "",
        geom := (), xmlParentName := "link", poseRelativeToGraph := some () }
      1 =
      Collision.ResolvePose (G := Multiplicative ℤ) (Γ := Unit) (M := Unit)
      (fun _ src _ p => ([], if src = "link" then Multiplicative.ofAdd 7 else p))
      { name := "c", pose := Multiplicative.ofAdd 2, poseRelativeTo := "",
        geom := (), xmlParentName := "link", poseRelativeToGraph := some () }
      "link" 1 := by
  have h := collision_resolvePose_empty_relative_to
    (G := Multiplicative ℤ) (Γ := Unit) (M := Unit)
    (fun _ src _ p => ([], if src = "link" then Multiplicative.ofAdd 7 else p))
    { name := "c", pose := Multiplicative.ofAdd 2, poseRelativeTo := "",
      geom := (), xmlParentName := "link", poseRelativeToGraph := some () }
    () "frame" 1 rfl (by decide) rfl
  exact ⟨by simpa using h.1, h.2⟩

/-- C10: on the main branch (live graph, non-empty xml parent name) the
output pose is the graph-resolution result multiplied on the right by the
collision's raw pose — unconditionally, whatever error list the resolution
returned; the output pose equals the input only on the expired-graph and
empty-xml-parent-name branches. -/
theorem collision_resolvePose_multiplies_despite_errors
    (rp : Γ → String → String → G → Errors × G)
    (c : Collision G Γ M) (graph : Γ) (relativeTo : String) (pose : G)
    (hg : c.poseRelativeToGraph = some graph)
    (hx : c.xmlParentName ≠ "") :
    Collision.ResolvePose rp c relativeTo pose =
      ((rp graph
          (if c.poseRelativeTo = "" then c.xmlParentName else c.poseRelativeTo)
          relativeTo pose).1,
        (rp graph
          (if c.poseRelativeTo = "" then c.xmlParentName else c.poseRelativeTo)
          relativeTo pose).2 * c.pose) ∧
    (Collision.ResolvePose rp
      { c with poseRelativeToGraph := none } relativeTo pose).2 = pose ∧
    (Collision.ResolvePose rp
      { c with xmlParentName := "" } relativeTo pose).2 = pose := by
  refine ⟨?_, rfl, ?_⟩
  · unfold Collision.ResolvePose
    rw [hg]
    simp [hx]
  · unfold Collision.ResolvePose
    cases hc : c.poseRelativeToGraph <;> simp

theorem collision_resolvePose_multiplies_despite_errors_witness :
    Collision.ResolvePose (G := Multiplicative ℤ) (Γ := Unit) (M := Unit)
      (fun _ _ _ p => ([⟨.elementInvalid, "resolution failed"⟩], p))
      { name := "c", pose := Multiplicative.ofAdd 2, poseRelativeTo := "base",
        geom := (), xmlParentName := "link", poseRelativeToGraph := some () }
      "frame" (Multiplicative.ofAdd 1) =
      ([⟨.elementInvalid, "resolution failed"⟩],
        Multiplicative.ofAdd 1 * Multiplicative.ofAdd 2) ∧
    (Collision.ResolvePose (G := Multiplicative ℤ) (Γ := Unit) (M := Unit)
      (fun _ _ _ p => ([⟨.elementInvalid, "resolution failed"⟩], p))
      { name := "c", pose := Multiplicative.ofAdd 2, poseRelativeTo := "base",
        geom := (), xmlParentName := "link", poseRelativeToGraph := none }
      "frame" (Multiplicative.ofAdd 1)).2 = Multiplicative.ofAdd 1 := by
  have h := collision_resolvePose_multiplies_despite_errors
    (G := Multiplicative ℤ) (Γ := Unit) (M := Unit)
    (fun _ _ _ p => ([⟨.elementInvalid, "resolution failed"⟩], p))
    { name := "c", pose := Multiplicative.ofAdd 2, poseRelativeTo := "base",
      geom := (), xmlParentName := "link", poseRelativeToGraph := some () }
    () "frame" (Multiplicative.ofAdd 1) rfl (by decide)
  exact ⟨by simpa using h.1, by simpa using h.2.1⟩

end CollisionTheorems

section AccessorTheorems

/-- Bounds-checked indexing agrees with optional list indexing. -/
lemma byIndexGet {α : Type} (l : List α) (i : Nat) :
    (if h : i < l.length then some (l.get ⟨i, h⟩) else none) = l.get? i ∧
    ((if h : i < l.length then some (l.get ⟨i, h⟩) else none).isSome ↔
      i < l.length) := by
  constructor
  · split
    · next h => exact (List.get?_eq_get h).symm
    · next h => exact (List.get?_eq_none.mpr (Nat.le_of_not_lt h)).symm
  · split <;> simp_all

/-- C9: every index-based accessor of the Actor family returns the stored
element exactly when the index is strictly below the corresponding count, and
`none` (a null pointer) otherwise; no out-of-bounds access occurs. -/
theorem byIndex_accessors_safe {G : Type} [Group G] {L J : Type}
    (t : Trajectory G) (a : Actor G L J) (i : Nat) :
    (t.WaypointByIndex i = t.waypoints.get? i ∧
      ((t.WaypointByIndex i).isSome ↔ i < t.WaypointCount)) ∧
    (a.AnimationByIndex i = a.animations.get? i ∧
      ((a.AnimationByIndex i).isSome ↔ i < a.AnimationCount)) ∧
    (a.TrajectoryByIndex i = a.trajectories.get? i ∧
      ((a.TrajectoryByIndex i).isSome ↔ i < a.TrajectoryCount)) ∧
    (a.LinkByIndex i = a.links.get? i ∧
      ((a.LinkByIndex i).isSome ↔ i < a.LinkCount)) ∧
    (a.JointByIndex i = a.joints.get? i ∧
      ((a.JointByIndex i).isSome ↔ i < a.JointCount)) :=
  ⟨byIndexGet t.waypoints i, byIndexGet a.animations i,
    byIndexGet a.trajectories i, byIndexGet a.links i, byIndexGet a.joints i⟩

/-- A one-waypoint trajectory used to exercise the accessors. -/
def trajW : Trajectory (Multiplicative ℤ) :=
  { id := 0, type := "spline", tension := 0,
    waypoints := [{ time := 0, pose := 1 }] }

theorem byIndex_accessors_safe_witness :
    (trajW.WaypointByIndex 0).isSome = true ∧
    trajW.WaypointByIndex 1 = none :=
  ⟨(byIndex_accessors_safe trajW
      (Actor.init (G := Multiplicative ℤ) (L := Unit) (J := Unit))
      0).1.2.mpr (by decide),
   ((byIndex_accessors_safe trajW
      (Actor.init (G := Multiplicative ℤ) (L := Unit) (J := Unit))
      1).1.1).trans rfl⟩

end AccessorTheorems

section ReservedNameTheorems

variable {G : Type} [Group G] {Γ M E : Type}

/-- C7: `"world"` is a reserved name, and loading a collision whose declared
name is reserved produces a `RESERVED_NAME` error in the returned error
list. -/
theorem collision_load_reserved_name
    (geomLoad : E → Errors × M)
    (c : Collision G Γ M) (e : CollisionElem G E) (n : String)
    (htag : e.tag = "collision") (hname : e.nameAttr = some n)
    (hres : isReservedName n = true) :
    isReservedName "world" = true ∧
    (⟨.reservedName,
        "The supplied collision name [" ++ n ++ "] is reserved."⟩ : SdfError) ∈
      (Collision.Load geomLoad c e).1 := by
  refine ⟨by decide, ?_⟩
  unfold Collision.Load
  simp [htag, hname, hres]

theorem collision_load_reserved_name_witness :
    isReservedName "world" = true ∧
    (⟨.reservedName,
        "The supplied collision name [" ++ "world" ++ "] is reserved."⟩ : SdfError) ∈
      (Collision.Load (G := Multiplicative ℤ) (Γ := Unit) (M := Unit)
        (E := Unit) (fun _ => ([], ()))
        { name := "", pose := 1, poseRelativeTo := "", geom := (),
          xmlParentName := "", poseRelativeToGraph := none }
        { tag := "collision", nameAttr := some "world", poseElem := none,
          geomElem := () }).1 :=
  collision_load_reserved_name (G := Multiplicative ℤ) (Γ := Unit)
    (M := Unit) (E := Unit) (fun _ => ([], ()))
    { name := "", pose := 1, poseRelativeTo := "", geom := (),
      xmlParentName := "", poseRelativeToGraph := none }
    { tag := "collision", nameAttr := some "world", poseElem := none,
      geomElem := () }
    "world" rfl rfl (by decide)

end ReservedNameTheorems

section DuplicateNameTheorems

/-- C5: when two sibling elements of the same type declare the same name, the
later occurrence yields a `DUPLICATE_NAME` error and is not added to the
output collection; a well-formed sibling with a fresh name still loads
normally and no cascading errors are produced — the total error list is
exactly the single duplicate error plus each element's own load errors. -/
theorem loadUniqueRepeated_duplicate {α β : Type}
    (load : α → Errors × β) (getName : α → Option String)
    (sdfName : String) (e1 e2 e3 : α) (n m : String)
    (h1 : getName e1 = some n) (h2 : getName e2 = some n)
    (h3 : getName e3 = some m) (hnm : n ≠ m) :
    loadUniqueRepeated load getName sdfName [e1, e2, e3] =
      ((load e1).1 ++
        ⟨.duplicateName,
          sdfName ++ " with name[" ++ n ++ "] already exists."⟩ ::
        ((load e2).1 ++ (load e3).1),
       [(load e1).2, (load e3).2]) := by
  simp [loadUniqueRepeated, loadUniqueRepeatedAux, h1, h2, h3,
    Ne.symm hnm]

theorem loadUniqueRepeated_duplicate_witness :
    loadUniqueRepeated (α := String) (β := String)
      (fun s => ([], s)) (fun s => some s) "animation" ["a", "a", "b"] =
      ([⟨.duplicateName, "animation" ++ " with name[" ++ "a" ++ "] already exists."⟩],
       ["a", "b"]) := by
  have h := loadUniqueRepeated_duplicate (α := String) (β := String)
    (fun s => ([], s)) (fun s => some s) "animation" "a" "a" "b" "a" "b"
    rfl rfl rfl (by decide)
  simpa using h

end DuplicateNameTheorems

section ActorLoadTheorems

variable {G : Type} [Group G] {L J α β : Type}

/-- The loader `loadRepeated` keeps one output object per input element, whatever
errors the individual loads produced. -/
lemma loadRepeated_length {α β : Type} (load : α → Errors × β)
    (elems : List α) :
    (loadRepeated load elems).2.length = elems.length := by
  induction elems with
  | nil => rfl
  | cons e rest ih => simp [loadRepeated, ih]

/-- What C6 asserts of one `Actor::Load` run: the returned error list is the
concatenation of every stage's errors (so no defect aborts the pass), the
three single-element defects each land in the returned list, and the loaded
child collections are kept in full — one object per child element — even when
the child loads produced errors. -/
def ActorLoadAccumulates (loadLink : α → Errors × L)
    (loadJoint : β → Errors × J)
    (a : Actor G L J) (e : ActorElem G α β) : Prop :=
  let r := Actor.Load loadLink loadJoint a e
  r.1 = (actorNameR a.name e.nameAttr).1 ++
      (actorSkinR a.skinFilename a.skinScale e.skin).1 ++
      (loadUniqueRepeated (Animation.Load Animation.init)
        (fun (ae : AnimationElem) => ae.nameAttr) "animation" e.animations).1 ++
      (actorScriptR a.scriptLoop a.scriptDelayStart a.scriptAutoStart
        a.trajectories e.script).1 ++
      (loadRepeated loadLink e.links).1 ++
      (loadRepeated loadJoint e.joints).1 ∧
  (e.nameAttr = none →
    (⟨.attributeMissing,
        "An actor name is required, but the name is not set."⟩ : SdfError) ∈ r.1) ∧
  (∀ s, e.skin = some s → s.filename = none →
    (⟨.elementMissing, "A <skin> requires a <filename>."⟩ : SdfError) ∈ r.1) ∧
  (e.script = none →
    (⟨.elementMissing, "An <actor> requires a <script>."⟩ : SdfError) ∈ r.1) ∧
  r.2.animations = (loadUniqueRepeated (Animation.Load Animation.init)
    (fun (ae : AnimationElem) => ae.nameAttr) "animation" e.animations).2 ∧
  r.2.trajectories = (actorScriptR a.scriptLoop a.scriptDelayStart
    a.scriptAutoStart a.trajectories e.script).2.2.2.2 ∧
  r.2.links = (loadRepeated loadLink e.links).2 ∧
  r.2.joints = (loadRepeated loadJoint e.joints).2 ∧
  (loadRepeated loadLink e.links).2.length = e.links.length ∧
  (loadRepeated loadJoint e.joints).2.length = e.joints.length

/-- C6: `Actor::Load` accumulates every defect found in one pass — it
continues after a missing name, a missing skin filename, or a missing script,
appends every child-load error to the returned list, and `loadRepeated`
keeps each child object in the output vector even when that child's load
produced errors. -/
theorem actor_load_accumulates (loadLink : α → Errors × L)
    (loadJoint : β → Errors × J)
    (a : Actor G L J) (e : ActorElem G α β)
    (htag : e.tag = "actor") :
    ActorLoadAccumulates loadLink loadJoint a e := by
  have hr : Actor.Load loadLink loadJoint a e =
      ((actorNameR a.name e.nameAttr).1 ++
        (actorSkinR a.skinFilename a.skinScale e.skin).1 ++
        (loadUniqueRepeated (Animation.Load Animation.init)
          (fun (ae : AnimationElem) => ae.nameAttr) "animation" e.animations).1 ++
        (actorScriptR a.scriptLoop a.scriptDelayStart a.scriptAutoStart
          a.trajectories e.script).1 ++
        (loadRepeated loadLink e.links).1 ++
        (loadRepeated loadJoint e.joints).1,
       { name := (actorNameR a.name e.nameAttr).2
         pose := (loadPoseF e.poseElem).1
         poseFrame := (loadPoseF e.poseElem).2
         skinFilename := (actorSkinR a.skinFilename a.skinScale e.skin).2.1
         skinScale := (actorSkinR a.skinFilename a.skinScale e.skin).2.2
         animations := (loadUniqueRepeated (Animation.Load Animation.init)
           (fun (ae : AnimationElem) => ae.nameAttr) "animation" e.animations).2
         scriptLoop := (actorScriptR a.scriptLoop a.scriptDelayStart
           a.scriptAutoStart a.trajectories e.script).2.1
         scriptDelayStart := (actorScriptR a.scriptLoop a.scriptDelayStart
           a.scriptAutoStart a.trajectories e.script).2.2.1
         scriptAutoStart := (actorScriptR a.scriptLoop a.scriptDelayStart
           a.scriptAutoStart a.trajectories e.script).2.2.2.1
         trajectories := (actorScriptR a.scriptLoop a.scriptDelayStart
           a.scriptAutoStart a.trajectories e.script).2.2.2.2
         links := (loadRepeated loadLink e.links).2
         joints := (loadRepeated loadJoint e.joints).2 }) := by
    unfold Actor.Load
    rw [if_neg (by simp [htag])]
  refine ⟨by rw [hr], ?_, ?_, ?_, by rw [hr], by rw [hr], by rw [hr],
    by rw [hr], loadRepeated_length loadLink e.links,
    loadRepeated_length loadJoint e.joints⟩
  · intro hname
    rw [hr]
    simp [actorNameR, hname]
  · intro s hskin hfile
    rw [hr]
    simp [actorSkinR, hskin, hfile]
  · intro hscript
    rw [hr]
    simp [actorScriptR, hscript]

theorem actor_load_accumulates_witness :
    ActorLoadAccumulates (G := Multiplicative ℤ)
      (L := Unit) (J := Unit) (α := Unit) (β := Unit)
      (fun _ => ([⟨.elementMissing, "link load failed"⟩], ()))
      (fun _ => ([⟨.elementMissing, "joint load failed"⟩], ()))
      Actor.init
      { tag := "actor", nameAttr := none, poseElem := none,
        skin := some { filename := none, scale := none },
        animations := [], script := none, links := [()], joints := [()] } :=
  actor_load_accumulates
    (fun _ => ([⟨.elementMissing, "link load failed"⟩], ()))
    (fun _ => ([⟨.elementMissing, "joint load failed"⟩], ()))
    Actor.init
    { tag := "actor", nameAttr := none, poseElem := none,
      skin := some { filename := none, scale := none },
      animations := [], script := none, links := [()], joints := [()] }
    rfl

end ActorLoadTheorems

section GraphTheorems

variable {G : Type} [Group G]

/-- C1: resolving a vertex to itself yields the identity transform, and no
pose edge is traversed: the theorem needs no validity hypothesis on the
graph's edges at all — it holds even for a graph whose pose edges form a
cycle, because the self-resolution answer never consults them. -/
theorem resolvePose_self (g : PoseRelativeToGraph G) (x : String) (i : Nat)
    (h : findVertex g x = some i) :
    ResolvePose g x x = some 1 := by
  unfold ResolvePose
  rw [h]
  simp

/-- A one-vertex pose graph whose only vertex carries a self-loop pose edge:
self-resolution still answers the identity without walking the cycle. -/
def selfLoopGraph : PoseRelativeToGraph (Multiplicative ℤ) :=
  { verts := [{ name := "a", edgeTo := some (0, Multiplicative.ofAdd 1) }] }

theorem resolvePose_self_witness :
    findVertex selfLoopGraph "a" = some 0 ∧
    ResolvePose selfLoopGraph "a" "a" = some 1 :=
  ⟨rfl, resolvePose_self selfLoopGraph "a" 0 rfl⟩

/-- C8: a successful attachment resolution always stops at a Link vertex, the
WorldRoot, or a ModelPlaceholder — never at a Joint, Visual, Collision, or
explicit Frame vertex. -/
theorem resolveAttachedTo_terminal (g : FrameAttachedToGraph)
    (fuel v t : Nat) (h : resolveAttachedTo g fuel v = some t) :
    ∃ vert, g.verts.get? t = some vert ∧ isTerminalKind vert.kind = true ∧
      vert.kind ≠ VertexKind.joint ∧ vert.kind ≠ VertexKind.visual ∧
      vert.kind ≠ VertexKind.collision ∧
      vert.kind ≠ VertexKind.explicitFrame := by
  induction fuel generalizing v with
  | zero => simp [resolveAttachedTo] at h
  | succ n ih =>
    simp only [resolveAttachedTo] at h
    split at h
    · cases h
    · rename_i vert hv
      split at h
      · rename_i hterm
        obtain rfl : v = t := Option.some.inj h
        refine ⟨vert, hv, hterm, ?_, ?_, ?_, ?_⟩ <;>
          (cases hk : vert.kind <;> simp_all [isTerminalKind])
      · rename_i hterm
        split at h
        · cases h
        · rename_i nxt he
          exact ih nxt h

/-- An attachment graph with a Link root and an explicit frame attached to
it. -/
def sampleAttachGraph : FrameAttachedToGraph :=
  { verts := [{ name := "L", kind := VertexKind.link, edgeTo := none },
              { name := "F", kind := VertexKind.explicitFrame,
                edgeTo := some 0 }] }

theorem resolveAttachedTo_terminal_witness :
    resolveAttachedTo sampleAttachGraph 2 1 = some 0 ∧
    ∃ vert, sampleAttachGraph.verts.get? 0 = some vert ∧
      isTerminalKind vert.kind = true ∧
      vert.kind ≠ VertexKind.joint ∧ vert.kind ≠ VertexKind.visual ∧
      vert.kind ≠ VertexKind.collision ∧
      vert.kind ≠ VertexKind.explicitFrame :=
  ⟨rfl, resolveAttachedTo_terminal sampleAttachGraph 2 1 0 rfl⟩

/-- The longest-common-prefix length is symmetric in its arguments. -/
lemma commonPrefixLen_comm {α : Type} [DecidableEq α] (xs ys : List α) :
    commonPrefixLen xs ys = commonPrefixLen ys xs := by
  induction xs generalizing ys with
  | nil => cases ys <;> simp [commonPrefixLen]
  | cons x xs ih =>
    cases ys with
    | nil => simp [commonPrefixLen]
    | cons y ys =>
      simp only [commonPrefixLen]
      by_cases h : x = y
      · subst h
        simp [ih]
      · rw [if_neg h, if_neg (fun hh => h hh.symm)]

/-- C2: for two vertices of a validly built pose graph — both walks to the
root succeed and end at the same root vertex — the transforms returned by
`ResolvePose(A, B)` and `ResolvePose(B, A)` compose to the identity, i.e.
each is the inverse of the other. -/
theorem resolvePose_round_trip (g : PoseRelativeToGraph G)
    (A B : String) (a b : Nat) (es et : List (Nat × G))
    (hA : findVertex g A = some a) (hB : findVertex g B = some b)
    (hes : toRootEdges g g.verts.length a = some es)
    (het : toRootEdges g g.verts.length b = some et)
    (hroot : (idChain a es).getLast? = (idChain b et).getLast?) :
    ∃ x y, ResolvePose g A B = some x ∧ ResolvePose g B A = some y ∧
      x * y = 1 := by
  by_cases hab : a = b
  · subst hab
    refine ⟨1, 1, ?_, ?_, one_mul 1⟩ <;>
      · unfold ResolvePose
        rw [hA, hB]
        simp
  · have hab' : ¬ b = a := fun hh => hab hh.symm
    have hhead : (idChain a es).reverse.head? = (idChain b et).reverse.head? := by
      rw [List.head?_reverse, List.head?_reverse, hroot]
    obtain ⟨r, rs, hrs⟩ : ∃ r rs, (idChain a es).reverse = r :: rs := by
      cases hcase : (idChain a es).reverse with
      | nil => exact absurd (List.reverse_eq_nil_iff.mp hcase) (by simp [idChain])
      | cons r rs => exact ⟨r, rs, rfl⟩
    obtain ⟨r', rt, hrt⟩ : ∃ r' rt, (idChain b et).reverse = r' :: rt := by
      cases hcase : (idChain b et).reverse with
      | nil => exact absurd (List.reverse_eq_nil_iff.mp hcase) (by simp [idChain])
      | cons r' rt => exact ⟨r', rt, rfl⟩
    have hr : r' = r := by
      rw [hrs, hrt] at hhead
      simpa using hhead.symm
    subst hr
    have hk : commonPrefixLen (idChain a es).reverse (idChain b et).reverse ≠ 0 := by
      rw [hrs, hrt]
      simp [commonPrefixLen]
    have hcomm : commonPrefixLen (idChain b et).reverse (idChain a es).reverse =
        commonPrefixLen (idChain a es).reverse (idChain b et).reverse :=
      commonPrefixLen_comm _ _
    refine ⟨(composeEdges (et.take (et.length + 1 -
        commonPrefixLen (idChain a es).reverse (idChain b et).reverse)))⁻¹ *
        composeEdges (es.take (es.length + 1 -
        commonPrefixLen (idChain a es).reverse (idChain b et).reverse)),
      (composeEdges (es.take (es.length + 1 -
        commonPrefixLen (idChain a es).reverse (idChain b et).reverse)))⁻¹ *
        composeEdges (et.take (et.length + 1 -
        commonPrefixLen (idChain a es).reverse (idChain b et).reverse)),
      ?_, ?_, ?_⟩
    · simp [ResolvePose, hA, hB, hab, hes, het, hk]
    · simp [ResolvePose, hA, hB, hab', hes, het, hcomm, hk]
    · group

/-- A three-vertex pose graph: `world` root, `base` posed in `world`, `arm`
posed in `base` (the worked example of the spec). -/
def chainGraph : PoseRelativeToGraph (Multiplicative ℤ) :=
  { verts := [{ name := "world", edgeTo := none },
              { name := "base", edgeTo := some (0, Multiplicative.ofAdd 5) },
              { name := "arm", edgeTo := some (1, Multiplicative.ofAdd 3) }] }

theorem resolvePose_round_trip_witness :
    findVertex chainGraph "arm" = some 2 ∧
    findVertex chainGraph "world" = some 0 ∧
    toRootEdges chainGraph chainGraph.verts.length 2 =
      some [(1, Multiplicative.ofAdd 3), (0, Multiplicative.ofAdd 5)] ∧
    toRootEdges chainGraph chainGraph.verts.length 0 = some [] ∧
    (idChain 2 [(1, Multiplicative.ofAdd 3), (0, Multiplicative.ofAdd (5 : ℤ))]).getLast? =
      (idChain 0 ([] : List (ℕ × Multiplicative ℤ))).getLast? ∧
    ∃ x y, ResolvePose chainGraph "arm" "world" = some x ∧
      ResolvePose chainGraph "world" "arm" = some y ∧ x * y = 1 :=
  ⟨rfl, rfl, rfl, rfl, rfl,
    resolvePose_round_trip chainGraph "arm" "world" 2 0
      [(1, Multiplicative.ofAdd 3), (0, Multiplicative.ofAdd 5)] []
      rfl rfl rfl rfl rfl⟩

end GraphTheorems

end SdfV
